import Mathlib

/-!
Shallow embedding of the phishing-detector service (`app.py`): the URL
normalizer, the feature extractor with its WHOIS / liveness / reputation
sub-probes, the Gemini adjudicator, and the `/analyze` request handler.
External services (HTTP client, WHOIS library, UptimeRobot API, the
generative-model client, and the stdlib `json.loads`) are modelled as
per-request outcome oracles collected in an `Env` record; everything the
repository's own code does with those outcomes is translated directly.
-/

namespace PhishApp

/-! ### Python string primitives used by the code -/

/-- Whitespace characters stripped by Python `str.strip()`. -/
def pyWhitespace (c : Char) : Bool :=
  c == ' ' || c == '\t' || c == '\n' || c == '\x0d' || c == '\x0b' || c == '\x0c'

/-- Python `str.strip()` with no argument: drop leading and trailing whitespace. -/
def pyStrip (s : String) : String :=
  ⟨((s.data.dropWhile pyWhitespace).reverse.dropWhile pyWhitespace).reverse⟩

/-- Character-list version of a string-prefix test. -/
def isPrefixChars : List Char → List Char → Bool
  | [], _ => true
  | _ :: _, [] => false
  | a :: as, b :: bs => a == b && isPrefixChars as bs

/-- `starts_with s p` holds when `s` begins with `p`; this embeds the anchored,
case-sensitive regular-expression test `re.match(r'^(https?://)', s)` once `p`
ranges over the two literal alternatives. -/
def starts_with (s p : String) : Bool :=
  isPrefixChars p.data s.data

/-- Python substring membership `pat in s` on character lists. -/
def isSubstrChars (pat : List Char) : List Char → Bool
  | [] => isPrefixChars pat []
  | c :: rest => isPrefixChars pat (c :: rest) || isSubstrChars pat rest

/-- Python `pat in s` for strings. -/
def pyContains (s pat : String) : Bool :=
  isSubstrChars pat.data s.data

/-- Python `str.lower()` (ASCII letters; the keywords and test URLs are ASCII). -/
def pyLower (s : String) : String :=
  ⟨s.data.map Char.toLower⟩

/-- Fuel-indexed worker for Python `str.replace`: scan left to right, replace
every non-overlapping occurrence of `pat`. The fuel is the remaining scan
length; each step consumes at least one character, so fuel equal to the
haystack length never runs out. -/
def replaceCharsFuel (pat rep : List Char) : Nat → List Char → List Char
  | _, [] => []
  | 0, l => l
  | fuel + 1, c :: rest =>
    if isPrefixChars pat (c :: rest) && !pat.isEmpty then
      rep ++ replaceCharsFuel pat rep fuel ((c :: rest).drop pat.length)
    else
      c :: replaceCharsFuel pat rep fuel rest

/-- Python `s.replace(pat, rep)` for a non-empty pattern. -/
def pyReplace (s pat rep : String) : String :=
  ⟨replaceCharsFuel pat.data rep.data s.data.length s.data⟩

/-! ### JSON values (Python objects produced by `json.loads`) -/

/-- A decoded JSON value as Python sees it (numbers restricted to integers,
which is all this program ever produces or consumes). -/
inductive Json where
  | null
  | bool (b : Bool)
  | num (n : Int)
  | str (s : String)
  | arr (elems : List Json)
  | obj (entries : List (String × Json))

mutual

/-- Python `repr` of a decoded JSON value (string quoting modelled without
escape sequences, which never arise in the strings this program builds). -/
def pyRepr : Json → String
  | .null => "None"
  | .bool true => "True"
  | .bool false => "False"
  | .num n => toString n
  | .str s => "\x27" ++ s ++ "\x27"
  | .arr xs => "[" ++ pyReprElems xs ++ "]"
  | .obj kvs => "\x7b" ++ pyReprEntries kvs ++ "\x7d"

/-- `repr` of list elements joined by a comma and space. -/
def pyReprElems : List Json → String
  | [] => ""
  | [x] => pyRepr x
  | x :: y :: rest => pyRepr x ++ ", " ++ pyReprElems (y :: rest)

/-- `repr` of dict entries joined by a comma and space. -/
def pyReprEntries : List (String × Json) → String
  | [] => ""
  | [(k, v)] => "\x27" ++ k ++ "\x27: " ++ pyRepr v
  | (k, v) :: e :: rest => "\x27" ++ k ++ "\x27: " ++ pyRepr v ++ ", " ++ pyReprEntries (e :: rest)

end

/-- Python `str()` of a decoded JSON value, as applied by an f-string. -/
def pyStr : Json → String
  | .null => "None"
  | .bool true => "True"
  | .bool false => "False"
  | .num n => toString n
  | .str s => s
  | .arr xs => pyRepr (.arr xs)
  | .obj kvs => pyRepr (.obj kvs)

/-- Python `d.get(k, default)` on a decoded JSON object's entry list. -/
def jsonGetD (kvs : List (String × Json)) (k : String) (d : Json) : Json :=
  match kvs.lookup k with
  | some v => v
  | none => d

/-- Python subscription `d[k]`: a `KeyError` on a missing key, a `TypeError`
on any non-dict value; both are unhandled exceptions (`Except.error`). -/
def pyDictGet (j : Json) (k : String) : Except Unit Json :=
  match j with
  | .obj kvs =>
    match kvs.lookup k with
    | some v => Except.ok v
    | none => Except.error ()
  | _ => Except.error ()

/-- Python `v.strip()` applied to an arbitrary decoded JSON value: only a
string has a `strip` method; anything else raises `AttributeError`. -/
def pyStripJson : Json → Except Unit String
  | .str s => Except.ok (pyStrip s)
  | _ => Except.error ()

/-! ### Outcome oracles for the external services -/

/-- Outcome of the single `requests.get` inside `check_website_status`,
one constructor per handler the code has for it. -/
inductive HttpOutcome where
  | status (code : Nat)
  | sslError
  | timeout
  | connError
  | otherRequestError
deriving DecidableEq

/-- One UptimeRobot monitor record: `monitor.get("status")` and
`monitor.get("custom_uptime_ratio", "N/A")` are the only fields read. -/
structure Monitor where
  statusCode : Option Int
  uptimeRatioField : Option String
deriving DecidableEq

/-- Outcome of the UptimeRobot POST (`requests.post` + `raise_for_status` +
`.json()`): any `RequestException` on the way, or a decoded body giving the
`stat` field and the `monitors` list. -/
inductive UptimeOutcome where
  | requestError
  | ok (stat : Option String) (monitors : List Monitor)
deriving DecidableEq

/-- The `creation_date` attribute of a successful `whois.whois` result:
absent (`None`), a single datetime, a list of datetimes, or a non-datetime
value whose subtraction from `datetime.now()` raises (all datetimes are
modelled as integer seconds; a datetime object is always truthy). -/
inductive CreationField where
  | cnone
  | cdate (t : Int)
  | clist (ts : List Int)
  | cbad
deriving DecidableEq

/-- Outcome of `model.generate_content(prompt)` followed by `.text`: either
some exception, or the returned text. -/
inductive GeminiOutcome where
  | raise
  | text (t : String)
deriving DecidableEq

/-- The fields of `urlparse(url)` that the code reads. -/
structure UrlParts where
  scheme : String
  netloc : String
deriving DecidableEq

/-- Per-request environment: the two credential flags and the outcome of each
external call made while serving one request. `json_loads` is the behaviour
of the stdlib `json.loads` on the cleaned model text. -/
structure Env where
  use_gemini : Bool
  uptimerobot_key : Bool
  parse : Except Unit UrlParts
  http : HttpOutcome
  uptime : UptimeOutcome
  whoisResult : Except Unit CreationField
  now : Int
  gemini : GeminiOutcome
  json_loads : String → Except Unit Json

/-! ### TOOL 1 — check_website_status -/

/-- `check_website_status(url)`: classify the GET outcome; every
`requests` exception class has its own handler, so the function is total. -/
def check_website_status (env : Env) (url : String) : String :=
  match env.http with
  | .status code =>
    if 200 ≤ code && code < 300 then
      "Online (Status: " ++ toString code ++ ")"
    else
      "Responded with Error (Status: " ++ toString code ++ ")"
  | .sslError => "SSL Certificate Error"
  | .timeout => "Offline (Request Timed Out)"
  | .connError => "Offline (Connection Failed)"
  | .otherRequestError => "Could not be determined"

/-! ### TOOL 2 — get_uptimerobot_reputation -/

/-- The fixed `status_map` lookup with default `"Unknown"`. -/
def status_map (s : Option Int) : String :=
  match s with
  | some 0 => "Paused"
  | some 1 => "Not Checked Yet"
  | some 2 => "Up"
  | some 8 => "Seems Down"
  | some 9 => "Down"
  | _ => "Unknown"

/-- `get_uptimerobot_reputation(domain)`: credential short-circuit, then the
API call outcome, then the `stat == "ok" and monitors` truthiness test. -/
def get_uptimerobot_reputation (env : Env) (domain : String) : String :=
  if !env.uptimerobot_key then
    "Not configured"
  else
    match env.uptime with
    | .requestError => "Could not be determined"
    | .ok stat monitors =>
      if stat == some "ok" && !monitors.isEmpty then
        match monitors with
        | [] => "Not found in monitoring service"
        | m :: _ =>
          "Monitored - Status: " ++ status_map m.statusCode ++
            " (Uptime: " ++ m.uptimeRatioField.getD "N/A" ++ "%)"
      else
        "Not found in monitoring service"

/-! ### Feature extraction -/

/-- A feature value is a string or an integer (`len`, the keyword count). -/
inductive FeatureVal where
  | s (v : String)
  | n (v : Nat)
deriving DecidableEq

/-- Rendering of a feature value inside an f-string. -/
def featStr : FeatureVal → String
  | .s v => v
  | .n v => toString v

/-- The fixed suspicious-keyword list, in source order. -/
def suspicious_keywords : List String :=
  ["login", "verify", "bank", "account", "secure", "update", "signin"]

/-- `sum(1 for keyword in keywords if keyword in url.lower())`. -/
def suspicious_keyword_count (url : String) : Nat :=
  (suspicious_keywords.filter (fun k => pyContains (pyLower url) k)).length

/-- The `Domain Age` entry: the inner `try` around the WHOIS lookup. A raise
gives the placeholder; a `None` `creation_date` is falsy; an empty list makes
`creation_date[0]` raise `IndexError`, caught by the same handler; a
non-datetime value either is falsy or makes the subtraction raise. Otherwise
the elapsed `timedelta.days` (floor division of seconds by 86400) is
rendered as `"<N> days"`. -/
def domainAgeString (now : Int) (w : Except Unit CreationField) : String :=
  match w with
  | .error _ => "Could not be determined"
  | .ok .cnone => "Could not be determined"
  | .ok .cbad => "Could not be determined"
  | .ok (.clist []) => "Could not be determined"
  | .ok (.cdate t) => toString (Int.fdiv (now - t) 86400) ++ " days"
  | .ok (.clist (t :: _)) => toString (Int.fdiv (now - t) 86400) ++ " days"

/-- `extract_url_features(url)`: build the ordered evidence mapping; the
outer `try` turns a `urlparse` failure into the `None` sentinel, and no later
statement can raise (each probe handles its own exceptions). -/
def extract_url_features (env : Env) (url : String) :
    Option (List (String × FeatureVal)) :=
  match env.parse with
  | .error _ => none
  | .ok parsed_url =>
    some [
      ("Real-Time Status", .s (check_website_status env url)),
      ("Monitoring Reputation", .s (get_uptimerobot_reputation env parsed_url.netloc)),
      ("URL Length", .n url.length),
      ("Uses HTTPS", .s (if parsed_url.scheme == "https" then "Yes" else "No")),
      ("Number of Suspicious Keywords", .n (suspicious_keyword_count url)),
      ("Domain Age", .s (domainAgeString env.now env.whoisResult))
    ]

/-! ### AI adjudication -/

/-- The fallback dict returned by the `except` clause of `analyze_with_gemini`. -/
def gemini_fallback : Json :=
  .obj [("verdict", .str "Suspicious"), ("reason", .str "AI analysis failed.")]

/-- `response.text.strip().replace("```json", "").replace("```", "")`. -/
def cleanModelText (t : String) : String :=
  pyReplace (pyReplace (pyStrip t) "```json" "") "```" ""

/-- `analyze_with_gemini(url, features)`: credential short-circuit, then the
model call; any exception from the call or from `json.loads` hits the single
`except` and yields the fallback dict, while a successfully parsed value is
returned unchanged, whatever its shape. -/
def analyze_with_gemini (env : Env) (url : String)
    (features : List (String × FeatureVal)) : Json :=
  if !env.use_gemini then
    .obj [("verdict", .str "Error"), ("reason", .str "AI is not configured.")]
  else
    match env.gemini with
    | .raise => gemini_fallback
    | .text t =>
      match env.json_loads (cleanModelText t) with
      | .error _ => gemini_fallback
      | .ok j => j

/-! ### Request handler -/

/-- The inline normalizer of the handler:
`raw_url if re.match(r'^(https?://)', raw_url) else 'https://' + raw_url`. -/
def normalize_url (raw_url : String) : String :=
  if starts_with raw_url "http://" || starts_with raw_url "https://" then
    raw_url
  else
    "https://" ++ raw_url

/-- The three response shapes the handler itself produces. -/
inductive HttpResp where
  | badRequest (err : String)
  | serverError (err : String)
  | ok (url : String) (verdict : Json) (findings : List String)

/-- The `/analyze` handler on an already-decoded request body. `Except.error`
is an unhandled Python exception escaping the handler (no surrounding
`try`): `.get` on a non-dict body, `.strip()` on a non-string `url` value,
or subscripting a key-less adjudication result. -/
def analyze (env : Env) (body : Json) : Except Unit HttpResp :=
  (match body with
   | .obj kvs => Except.ok (jsonGetD kvs "url" (.str ""))
   | _ => Except.error ()).bind fun urlField =>
  (pyStripJson urlField).bind fun raw_url =>
  if raw_url == "" then
    Except.ok (.badRequest "URL is required")
  else
    let full_url_for_analysis := normalize_url raw_url
    match extract_url_features env full_url_for_analysis with
    | none => Except.ok (.serverError "Could not process the URL")
    | some features =>
      if features.isEmpty then
        Except.ok (.serverError "Could not process the URL")
      else
        let ai_result := analyze_with_gemini env full_url_for_analysis features
        (pyDictGet ai_result "reason").bind fun reason =>
        let findings := ("AI Analysis: " ++ pyStr reason) ::
          features.map (fun (kv : String × FeatureVal) => kv.1 ++ ": " ++ featStr kv.2)
        (pyDictGet ai_result "verdict").bind fun verdict =>
        Except.ok (.ok raw_url verdict findings)

/-! ### Concrete environments for witnesses and counterexamples -/

/-- A fully offline environment: no credentials, liveness probe answers 200,
WHOIS raises, `json.loads` never called. -/
def baseEnv : Env where
  use_gemini := false
  uptimerobot_key := false
  parse := .ok ⟨"https", "example.com"⟩
  http := .status 200
  uptime := .requestError
  whoisResult := .error ()
  now := 0
  gemini := .raise
  json_loads := fun _ => .error ()

/-- `baseEnv` with `urlparse` raising, as on a malformed IPv6 netloc. -/
def parseFailEnv : Env :=
  { baseEnv with parse := .error () }

/-- `baseEnv` with the Gemini credential set and a model reply whose text is
valid JSON but not an object with the two required keys; `json_loads`
behaves as the stdlib does on that text. -/
def listReplyEnv : Env :=
  { baseEnv with
    use_gemini := true
    gemini := .text "[1, 2]"
    json_loads := fun s =>
      if s == "[1, 2]" then .ok (.arr [.num 1, .num 2]) else .error () }

/-- `baseEnv` with the Gemini credential set; the model call raises. -/
def raiseEnv : Env :=
  { baseEnv with use_gemini := true }

/-! ### Helper lemmas -/

/-- A character list is a prefix of itself followed by anything. -/
theorem isPrefixChars_append (p t : List Char) : isPrefixChars p (p ++ t) = true := by
  induction p with
  | nil => rfl
  | cons a as ih => simp [isPrefixChars, ih]

/-- Rendering a negative machine integer starts with a dash. -/
theorem toString_negSucc (m : Nat) : toString (Int.negSucc m) = "-" ++ toString (m + 1) := rfl

/-- A string that starts with a dash is not the WHOIS placeholder string. -/
theorem dash_append_ne_placeholder (x : String) :
    "-" ++ x ≠ "Could not be determined" := by
  intro h
  have h2 : (some '-') = (some 'C') := congrArg (fun s : String => s.data.head?) h
  exact absurd (Option.some.inj h2) (by decide)

/-- Inversion of the 200 path of `analyze`: every success response comes from
a string `url` field, the trimmed URL, a completed extraction, and the two
key accesses on the adjudication result, and its findings list is the AI
reason followed by the rendered evidence entries in order. -/
theorem analyze_ok_inv (env : Env) (body : Json) (u : String) (v : Json)
    (ds : List String) (h : analyze env body = Except.ok (HttpResp.ok u v ds)) :
    ∃ kvs s fs r,
      body = Json.obj kvs ∧
      jsonGetD kvs "url" (.str "") = Json.str s ∧
      u = pyStrip s ∧
      extract_url_features env (normalize_url u) = some fs ∧
      pyDictGet (analyze_with_gemini env (normalize_url u) fs) "reason" = Except.ok r ∧
      pyDictGet (analyze_with_gemini env (normalize_url u) fs) "verdict" = Except.ok v ∧
      ds = ("AI Analysis: " ++ pyStr r) ::
        fs.map (fun (kv : String × FeatureVal) => kv.1 ++ ": " ++ featStr kv.2) := by
  cases body with
  | obj kvs =>
    simp only [analyze, Except.bind] at h
    cases hj : jsonGetD kvs "url" (Json.str "") with
    | str s =>
      rw [hj] at h
      simp only [pyStripJson] at h
      split at h
      · exact absurd h (by simp)
      · split at h
        · exact absurd h (by simp)
        · rename_i features hext
          split at h
          · exact absurd h (by simp)
          · rename_i hne
            cases hr : pyDictGet (analyze_with_gemini env (normalize_url (pyStrip s)) features)
                "reason" with
            | error e => rw [hr] at h; exact absurd h (by simp)
            | ok r =>
              rw [hr] at h
              simp only [Except.bind] at h
              cases hv : pyDictGet (analyze_with_gemini env (normalize_url (pyStrip s)) features)
                  "verdict" with
              | error e => rw [hv] at h; exact absurd h (by simp)
              | ok v2 =>
                rw [hv] at h
                simp only [Except.ok.injEq, HttpResp.ok.injEq] at h
                obtain ⟨hu, hvv, hds⟩ := h
                subst hu
                exact ⟨kvs, s, features, r, rfl, hj, rfl, hext, hr, hvv ▸ hv, hds.symm⟩
    | null => rw [hj] at h; exact absurd h (by simp [pyStripJson])
    | bool b => rw [hj] at h; exact absurd h (by simp [pyStripJson])
    | num n => rw [hj] at h; exact absurd h (by simp [pyStripJson])
    | arr xs => rw [hj] at h; exact absurd h (by simp [pyStripJson])
    | obj okvs => rw [hj] at h; exact absurd h (by simp [pyStripJson])
  | null => exact absurd h (by simp [analyze, Except.bind])
  | bool b => exact absurd h (by simp [analyze, Except.bind])
  | num n => exact absurd h (by simp [analyze, Except.bind])
  | str s => exact absurd h (by simp [analyze, Except.bind])
  | arr xs => exact absurd h (by simp [analyze, Except.bind])

/-! ### Claim C1 -/

/-- Claim C1 as stated is false: a model reply whose text is valid JSON but
not an object with the string keys `verdict` and `reason` (here the list
`[1, 2]`) is returned unchanged by `analyze_with_gemini`, not replaced by the
`Suspicious` fallback. -/
theorem C1_cex_parsed_json_without_keys :
    analyze_with_gemini listReplyEnv "https://example.com" [] =
      Json.arr [Json.num 1, Json.num 2] ∧
    analyze_with_gemini listReplyEnv "https://example.com" [] ≠
      Json.obj [("verdict", Json.str "Suspicious"), ("reason", Json.str "AI analysis failed.")] :=
  ⟨rfl, fun h => Json.noConfusion h⟩

/-- Claim C1, amended: with the credential configured, the fallback verdict
`Suspicious` with reason `AI analysis failed.` is returned exactly when the
model call raises or `json.loads` on the cleaned reply text raises; being a
pure function of the outcome, the result is identical on every repeated
failure. (Successfully parsed JSON is returned unchanged even when it lacks
the two keys.) -/
theorem C1_fallback_on_raise_or_parse_error (env : Env) (url : String)
    (features : List (String × FeatureVal)) (hk : env.use_gemini = true)
    (hfail : env.gemini = .raise ∨
      ∃ t, env.gemini = .text t ∧ env.json_loads (cleanModelText t) = Except.error ()) :
    analyze_with_gemini env url features =
      Json.obj [("verdict", Json.str "Suspicious"), ("reason", Json.str "AI analysis failed.")] := by
  rcases hfail with hr | ⟨t, ht, hp⟩
  · simp [analyze_with_gemini, hk, hr, gemini_fallback]
  · simp [analyze_with_gemini, hk, ht, hp, gemini_fallback]

/-- Witness for C1: in an environment where the model call raises, the
adjudicator returns the fallback dict. -/
theorem C1_fallback_witness :
    analyze_with_gemini raiseEnv "https://example.com" [] =
      Json.obj [("verdict", Json.str "Suspicious"), ("reason", Json.str "AI analysis failed.")] :=
  C1_fallback_on_raise_or_parse_error raiseEnv "https://example.com" [] rfl (Or.inl rfl)

/-! ### Claim C2 -/

/-- Claim C2 as stated is false: the scheme test `re.match(r'^(https?://)', _)`
is case-sensitive, so an input beginning `HTTP://` is not passed through
unchanged but gets `https://` prepended. -/
theorem C2_cex_uppercase_scheme :
    normalize_url "HTTP://example.com" = "https://HTTP://example.com" ∧
    normalize_url "HTTP://example.com" ≠ "HTTP://example.com" :=
  ⟨rfl, by decide⟩

/-- Claim C2, amended: the normalizer passes the input through unchanged
exactly when it starts with the lowercase literal `http://` or `https://`;
every other non-empty trimmed input — including one beginning `HTTP://` —
gets `https://` prepended, so its output starts with `https://`. -/
theorem C2_normalizer_schemes (s : String) :
    ((starts_with s "http://" || starts_with s "https://") = true →
      normalize_url s = s) ∧
    ((starts_with s "http://" || starts_with s "https://") = false →
      normalize_url s = "https://" ++ s ∧
        starts_with (normalize_url s) "https://" = true) := by
  constructor
  · intro hs
    simp [normalize_url, hs]
  · intro hs
    have hn : normalize_url s = "https://" ++ s := by simp [normalize_url, hs]
    refine ⟨hn, ?_⟩
    rw [hn]
    show isPrefixChars "https://".data ("https://".data ++ s.data) = true
    exact isPrefixChars_append _ _

/-- Witness for C2: a schemeless input gets the prefix. -/
theorem C2_normalizer_witness :
    normalize_url "example.com" = "https://" ++ "example.com" ∧
      starts_with (normalize_url "example.com") "https://" = true :=
  (C2_normalizer_schemes "example.com").2 (by decide)

/-! ### Claim C3 -/

/-- Claim C3 as stated is false: the handler echoes `raw_url` after
`.strip()`, so a submission with surrounding whitespace comes back trimmed,
not as the original raw string. -/
theorem C3_cex_whitespace_stripped :
    analyze baseEnv (Json.obj [("url", Json.str " example.com ")]) =
      Except.ok (HttpResp.ok "example.com" (Json.str "Error")
        ["AI Analysis: AI is not configured.",
         "Real-Time Status: Online (Status: 200)",
         "Monitoring Reputation: Not configured",
         "URL Length: 19",
         "Uses HTTPS: Yes",
         "Number of Suspicious Keywords: 0",
         "Domain Age: Could not be determined"]) ∧
    "example.com" ≠ " example.com " :=
  ⟨rfl, by decide⟩

/-- Claim C3, amended: on every 200 response, the `url` field equals the
trimmed (`str.strip`) form of the string the client submitted, not
necessarily the raw string itself. -/
theorem C3_url_field_is_trimmed_input (env : Env) (kvs : List (String × Json))
    (s u : String) (v : Json) (ds : List String)
    (hget : jsonGetD kvs "url" (.str "") = Json.str s)
    (h : analyze env (.obj kvs) = Except.ok (HttpResp.ok u v ds)) :
    u = pyStrip s := by
  obtain ⟨kvs2, s2, fs, r, hbody, hget2, hu, _, _, _, _⟩ := analyze_ok_inv env _ u v ds h
  cases hbody
  rw [hget] at hget2
  cases hget2
  exact hu

/-- Witness for C3: the trimmed-echo property at a concrete request. -/
theorem C3_trimmed_witness : "example.com" = pyStrip " example.com " :=
  C3_url_field_is_trimmed_input baseEnv [("url", Json.str " example.com ")]
    " example.com " "example.com" (Json.str "Error")
    ["AI Analysis: AI is not configured.",
     "Real-Time Status: Online (Status: 200)",
     "Monitoring Reputation: Not configured",
     "URL Length: 19",
     "Uses HTTPS: Yes",
     "Number of Suspicious Keywords: 0",
     "Domain Age: Could not be determined"] rfl rfl

/-! ### Claim C4 -/

/-- Claim C4: with the language-model credential unset, the adjudicator
returns exactly verdict `Error` with reason `AI is not configured.`, for
every URL, every evidence mapping, and every behaviour of the model service
(which is therefore never consulted). -/
theorem C4_no_credential_error_verdict (env : Env) (url : String)
    (features : List (String × FeatureVal)) (h : env.use_gemini = false) :
    analyze_with_gemini env url features =
      Json.obj [("verdict", Json.str "Error"), ("reason", Json.str "AI is not configured.")] := by
  simp [analyze_with_gemini, h]

/-- Witness for C4 at a concrete unconfigured environment. -/
theorem C4_no_credential_witness :
    analyze_with_gemini baseEnv "https://example.com" [("URL Length", FeatureVal.n 19)] =
      Json.obj [("verdict", Json.str "Error"), ("reason", Json.str "AI is not configured.")] :=
  C4_no_credential_error_verdict baseEnv "https://example.com"
    [("URL Length", FeatureVal.n 19)] rfl

/-! ### Claim C5 -/

/-- Claim C5: every 200 response carries the AI reason as its first finding,
rendered `AI Analysis: <reason>`, followed by exactly one finding per
evidence entry rendered `<name>: <value>`, in evidence insertion order. -/
theorem C5_findings_order (env : Env) (body : Json) (u : String) (v : Json)
    (ds : List String) (h : analyze env body = Except.ok (HttpResp.ok u v ds)) :
    ∃ fs r,
      extract_url_features env (normalize_url u) = some fs ∧
      pyDictGet (analyze_with_gemini env (normalize_url u) fs) "reason" = Except.ok r ∧
      ds = ("AI Analysis: " ++ pyStr r) ::
        fs.map (fun (kv : String × FeatureVal) => kv.1 ++ ": " ++ featStr kv.2) := by
  obtain ⟨kvs, s, fs, r, _, _, _, hext, hr, _, hds⟩ := analyze_ok_inv env body u v ds h
  exact ⟨fs, r, hext, hr, hds⟩

/-- Witness for C5 at a concrete request. -/
theorem C5_findings_witness :
    ∃ fs r,
      extract_url_features baseEnv (normalize_url "example.com") = some fs ∧
      pyDictGet (analyze_with_gemini baseEnv (normalize_url "example.com") fs) "reason" =
        Except.ok r ∧
      ["AI Analysis: AI is not configured.",
       "Real-Time Status: Online (Status: 200)",
       "Monitoring Reputation: Not configured",
       "URL Length: 19",
       "Uses HTTPS: Yes",
       "Number of Suspicious Keywords: 0",
       "Domain Age: Could not be determined"] =
        ("AI Analysis: " ++ pyStr r) ::
          fs.map (fun (kv : String × FeatureVal) => kv.1 ++ ": " ++ featStr kv.2) :=
  C5_findings_order baseEnv (Json.obj [("url", Json.str "example.com")])
    "example.com" (Json.str "Error")
    ["AI Analysis: AI is not configured.",
     "Real-Time Status: Online (Status: 200)",
     "Monitoring Reputation: Not configured",
     "URL Length: 19",
     "Uses HTTPS: Yes",
     "Number of Suspicious Keywords: 0",
     "Domain Age: Could not be determined"] rfl

/-! ### Claim C6 -/

/-- Claim C6: whenever extraction completes, the evidence mapping has a
`Domain Age` entry, and if the WHOIS lookup raised or yielded no creation
date that entry is exactly the string `Could not be determined`. -/
theorem C6_domain_age_placeholder (env : Env) (url : String)
    (fs : List (String × FeatureVal)) (h : extract_url_features env url = some fs) :
    ((env.whoisResult = Except.error () ∨ env.whoisResult = Except.ok .cnone) →
      ("Domain Age", FeatureVal.s "Could not be determined") ∈ fs) ∧
    ∃ v, ("Domain Age", v) ∈ fs := by
  simp only [extract_url_features] at h
  cases hp : env.parse with
  | error e => rw [hp] at h; exact absurd h (by simp)
  | ok parsed =>
    rw [hp] at h
    injection h with h'
    subst h'
    constructor
    · rintro (hw | hw) <;> rw [hw] <;>
        exact List.mem_cons_of_mem _ (List.mem_cons_of_mem _ (List.mem_cons_of_mem _
          (List.mem_cons_of_mem _ (List.mem_cons_of_mem _ (List.mem_cons_self _ _)))))
    · exact ⟨FeatureVal.s (domainAgeString env.now env.whoisResult),
        List.mem_cons_of_mem _ (List.mem_cons_of_mem _ (List.mem_cons_of_mem _
          (List.mem_cons_of_mem _ (List.mem_cons_of_mem _ (List.mem_cons_self _ _)))))⟩

/-- Witness for C6: with the WHOIS call raising, the concrete evidence list
carries the placeholder `Domain Age` entry. -/
theorem C6_domain_age_witness :
    ("Domain Age", FeatureVal.s "Could not be determined") ∈
      [("Real-Time Status", FeatureVal.s "Online (Status: 200)"),
       ("Monitoring Reputation", FeatureVal.s "Not configured"),
       ("URL Length", FeatureVal.n 19),
       ("Uses HTTPS", FeatureVal.s "Yes"),
       ("Number of Suspicious Keywords", FeatureVal.n 0),
       ("Domain Age", FeatureVal.s "Could not be determined")] :=
  (C6_domain_age_placeholder baseEnv "https://example.com" _ rfl).1 (Or.inl rfl)

/-! ### Claim C7 -/

/-- Claim C7: extraction is atomic — a returned mapping always carries
exactly the six feature keys in order (never a partial mapping), and when
extraction yields the `None` sentinel the handler responds 500 with the
error `Could not process the URL`. -/
theorem C7_atomic_extraction (env : Env) (url : String) :
    (∀ fs, extract_url_features env url = some fs →
      fs.map Prod.fst = ["Real-Time Status", "Monitoring Reputation", "URL Length",
        "Uses HTTPS", "Number of Suspicious Keywords", "Domain Age"]) ∧
    (∀ kvs s, jsonGetD kvs "url" (.str "") = Json.str s → pyStrip s ≠ "" →
      extract_url_features env (normalize_url (pyStrip s)) = none →
      analyze env (.obj kvs) = Except.ok (.serverError "Could not process the URL")) := by
  constructor
  · intro fs h
    simp only [extract_url_features] at h
    cases hp : env.parse with
    | error e => rw [hp] at h; exact absurd h (by simp)
    | ok parsed =>
      rw [hp] at h
      injection h with h'
      subst h'
      rfl
  · intro kvs s hget hne hnone
    have hb : (pyStrip s == "") = false := beq_eq_false_iff_ne.mpr hne
    simp [analyze, Except.bind, hget, pyStripJson, hb, hnone]

/-- Witness for C7: a parse failure produces the 500 processing error. -/
theorem C7_sentinel_witness :
    analyze parseFailEnv (Json.obj [("url", Json.str "x")]) =
      Except.ok (HttpResp.serverError "Could not process the URL") :=
  (C7_atomic_extraction parseFailEnv "https://x").2 [("url", Json.str "x")] "x" rfl
    (by decide) rfl

/-! ### Claim C8 -/

/-- Claim C8: the suspicious-keyword feature is the presence count over the
fixed seven-keyword set on the lowercased URL (each keyword contributing at
most one), and it equals 3 for `http://secure-login-bank.example.com`. -/
theorem C8_keyword_presence_count :
    suspicious_keyword_count "http://secure-login-bank.example.com" = 3 ∧
    (∀ url, suspicious_keyword_count url ≤ suspicious_keywords.length) ∧
    (∀ env fs, extract_url_features env "http://secure-login-bank.example.com" = some fs →
      ("Number of Suspicious Keywords", FeatureVal.n 3) ∈ fs) := by
  refine ⟨by decide, ?_, ?_⟩
  · intro url
    simp only [suspicious_keyword_count]
    exact List.length_filter_le _ _
  · intro env fs h
    simp only [extract_url_features] at h
    cases hp : env.parse with
    | error e => rw [hp] at h; exact absurd h (by simp)
    | ok parsed =>
      rw [hp] at h
      injection h with h'
      subst h'
      have h3 : suspicious_keyword_count "http://secure-login-bank.example.com" = 3 := by
        decide
      rw [← h3]
      exact List.mem_cons_of_mem _ (List.mem_cons_of_mem _ (List.mem_cons_of_mem _
        (List.mem_cons_of_mem _ (List.mem_cons_self _ _))))

/-- Witness for C8: the concrete evidence list carries the count 3. -/
theorem C8_keyword_witness :
    ("Number of Suspicious Keywords", FeatureVal.n 3) ∈
      [("Real-Time Status", FeatureVal.s "Online (Status: 200)"),
       ("Monitoring Reputation", FeatureVal.s "Not configured"),
       ("URL Length", FeatureVal.n 36),
       ("Uses HTTPS", FeatureVal.s "Yes"),
       ("Number of Suspicious Keywords", FeatureVal.n 3),
       ("Domain Age", FeatureVal.s "Could not be determined")] :=
  C8_keyword_presence_count.2.2 baseEnv _ rfl

/-! ### Claim C9 -/

/-- Claim C9: a request body whose `url` value is present but not a string
makes `.strip()` raise, so the handler neither returns the 400 validation
response nor any response of its taxonomy — the exception escapes. -/
theorem C9_non_string_url_unhandled (env : Env) (kvs : List (String × Json))
    (j : Json) (hlook : kvs.lookup "url" = some j) (hns : ∀ s, j ≠ Json.str s) :
    analyze env (.obj kvs) = Except.error () ∧
    analyze env (.obj kvs) ≠ Except.ok (HttpResp.badRequest "URL is required") := by
  have hget : jsonGetD kvs "url" (.str "") = j := by
    simp [jsonGetD, hlook]
  have hstrip : pyStripJson j = Except.error () := by
    cases j with
    | str s => exact absurd rfl (hns s)
    | null => rfl
    | bool b => rfl
    | num n => rfl
    | arr xs => rfl
    | obj okvs => rfl
  have hmain : analyze env (.obj kvs) = Except.error () := by
    simp [analyze, Except.bind, hget, hstrip]
  exact ⟨hmain, by rw [hmain]; exact fun hc => Except.noConfusion hc⟩

/-- Witness for C9: a JSON `null` in the `url` field escapes as an
unhandled exception. -/
theorem C9_null_url_witness :
    analyze baseEnv (Json.obj [("url", Json.null)]) = Except.error () :=
  (C9_non_string_url_unhandled baseEnv [("url", Json.null)] Json.null rfl
    (fun s hc => Json.noConfusion hc)).1

/-! ### Claim C10 -/

/-- Claim C10: a WHOIS creation date strictly in the future yields a negative
elapsed-day count (no lower-bound check), rendered as a dash, a positive
magnitude, and ` days` — not the placeholder string. -/
theorem C10_future_creation_negative_days (now t : Int) (h : now < t) :
    Int.fdiv (now - t) 86400 < 0 ∧
    ∃ N : Nat, 0 < N ∧
      domainAgeString now (Except.ok (.cdate t)) = "-" ++ toString N ++ " days" ∧
      domainAgeString now (Except.ok (.cdate t)) ≠ "Could not be determined" := by
  have hlt : Int.fdiv (now - t) 86400 < 0 := by
    rw [Int.fdiv_eq_ediv (now - t) (by norm_num)]
    omega
  refine ⟨hlt, ?_⟩
  cases hd : Int.fdiv (now - t) 86400 with
  | ofNat k => rw [hd] at hlt; exact absurd hlt (Int.not_lt.mpr (Int.ofNat_nonneg k))
  | negSucc m =>
    refine ⟨m + 1, Nat.succ_pos m, ?_, ?_⟩
    · show toString (Int.fdiv (now - t) 86400) ++ " days" = "-" ++ toString (m + 1) ++ " days"
      rw [hd, toString_negSucc]
    · show toString (Int.fdiv (now - t) 86400) ++ " days" ≠ "Could not be determined"
      rw [hd, toString_negSucc, String.append_assoc]
      exact dash_append_ne_placeholder _

/-- Witness for C10: a creation date one day in the future gives `-1 days`. -/
theorem C10_future_creation_witness :
    Int.fdiv ((0 : Int) - 86400) 86400 < 0 ∧
    ∃ N : Nat, 0 < N ∧
      domainAgeString 0 (Except.ok (.cdate 86400)) = "-" ++ toString N ++ " days" ∧
      domainAgeString 0 (Except.ok (.cdate 86400)) ≠ "Could not be determined" :=
  C10_future_creation_negative_days 0 86400 (by decide)

end PhishApp
